import Mathlib

/-!
Shallow embedding of the storage-backend fallback layer of `src/backend/server.js`:
the fallback `/api/files/list`, `/api/files/download/:filename` and
`/api/files/clear-cache` handlers, the blob-storage initialization flag set by
`startServer`, and the `/api/health` handler.

The filesystem is modelled abstractly: the uploads directory either exists or
not; when it exists, enumerating it (`readdirSync`) either fails or yields a
list of entries; each entry carries its ground-truth kind (directory or not),
size and creation time, together with the outcomes of the fallible syscalls the
handlers perform on it (`statSync`, `unlinkSync`, and the download transfer).
JSON response bodies are modelled by an explicit JSON value type so that the
exact shape of each response (which fields are present, whether an array holds
strings or objects) is part of the model.
-/

namespace LLMFGO

/-- Model of JavaScript `String.prototype.startsWith`: the second string is a
prefix of the first (compared character by character). -/
def jsStartsWith (s p : String) : Bool :=
  p.data.isPrefixOf s.data

/-- A JSON value, used to model the exact response bodies the handlers build. -/
inductive JVal where
  | str : String → JVal
  | num : Int → JVal
  | arr : List JVal → JVal
  | obj : List (String × JVal) → JVal

/-- Field lookup in a JSON object; `none` on non-objects or absent keys. -/
def JVal.getField : JVal → String → Option JVal
  | .obj fields, k => fields.lookup k
  | _, _ => none

/-- Whether a JSON value is an object (a `{...}` record). -/
def JVal.isObj : JVal → Bool
  | .obj _ => true
  | _ => false

/-- One entry of the uploads directory: its name, its ground-truth kind and
stat data, and the outcomes of the syscalls the handlers may perform on it.
`statFails = some m` means `fs.statSync` throws with message `m`;
`unlinkFails = some m` means `fs.unlinkSync` throws with message `m`;
`readFails = some m` means the download transfer (`res.download`) fails. -/
structure Entry where
  name : String
  isDir : Bool
  size : Nat
  birthtime : Int
  statFails : Option String
  unlinkFails : Option String
  readFails : Option String
deriving DecidableEq

/-- `fs.statSync` on an entry: throws if `statFails`, else returns the stat
data (is-directory flag, size, birthtime). -/
def Entry.statSync (e : Entry) : Except String (Bool × Nat × Int) :=
  match e.statFails with
  | some m => .error m
  | none => .ok (e.isDir, e.size, e.birthtime)

/-- `fs.unlinkSync` on an entry: throws if `unlinkFails`. -/
def Entry.unlinkSync (e : Entry) : Except String Unit :=
  match e.unlinkFails with
  | some m => .error m
  | none => .ok ()

/-- The state of the uploads directory: whether it exists (`fs.existsSync` on
the root), and the outcome of enumerating it (`fs.readdirSync`). -/
structure FS where
  rootExists : Bool
  listing : Except String (List Entry)

/-- `fs.readdirSync(uploadsDir)`: throws if the directory does not exist,
otherwise behaves as the recorded listing outcome. -/
def FS.readdirSync (fs : FS) : Except String (List Entry) :=
  if fs.rootExists then fs.listing else .error "ENOENT"

/-- Look an entry up by name (`fs.existsSync(path.join(uploadsDir, name))`
combined with fetching the entry). -/
def FS.findEntry (fs : FS) (name : String) : Option Entry :=
  if fs.rootExists then
    match fs.listing with
    | .ok es => es.find? (fun e => e.name == name)
    | .error _ => none
  else none

/-- The `{filename, size, createdAt}` descriptor the list handler builds for
one entry (server.js lines 100-104). -/
def fileDesc (e : Entry) : JVal :=
  .obj [("filename", .str e.name), ("size", .num e.size), ("createdAt", .num e.birthtime)]

/-- The `.map` body of the list handler: stat each entry and build its
descriptor; a stat throw escapes to the catch of the handler. -/
def statMap : List Entry → Except String (List JVal)
  | [] => .ok []
  | e :: rest =>
    match e.statSync with
    | .error m => .error m
    | .ok (_, size, birthtime) =>
      match statMap rest with
      | .error m => .error m
      | .ok l => .ok (.obj [("filename", .str e.name), ("size", .num size), ("createdAt", .num birthtime)] :: l)

/-- The fallback `GET /api/files/list` handler (server.js lines 93-112):
readdir, drop hidden entries, stat each remaining entry; any throw yields
`500 {error: "Failed to list files"}`. -/
def listHandler (fs : FS) : Nat × JVal :=
  match fs.readdirSync with
  | .error _ => (500, .obj [("error", .str "Failed to list files")])
  | .ok entries =>
    match statMap (entries.filter (fun e => !jsStartsWith e.name ".")) with
    | .error _ => (500, .obj [("error", .str "Failed to list files")])
    | .ok descs => (200, .arr descs)

/-- Outcome of the fallback `GET /api/files/download/:filename` handler:
either the stream of the file (200), `404 {error: "File not found"}`, or
`500 {error: "Failed to download file"}`. -/
inductive DownloadResult where
  | fileStream : String → DownloadResult
  | notFound : DownloadResult
  | failure : DownloadResult

/-- The HTTP status each download outcome is sent with. -/
def DownloadResult.status : DownloadResult → Nat
  | .fileStream _ => 200
  | .notFound => 404
  | .failure => 500

/-- The fallback download handler (server.js lines 114-128): check existence
first, then attempt the transfer. -/
def downloadHandler (fs : FS) (name : String) : DownloadResult :=
  match fs.findEntry name with
  | none => .notFound
  | some e =>
    match e.readFails with
    | some _ => .failure
    | none => .fileStream e.name

/-- The clear-cache name filter (server.js line 142): keep entries that are
not hidden and are not the reserved `"test"` entry. -/
def clearFilter (n : String) : Bool :=
  !jsStartsWith n "." && n != "test"

/-- The per-item delete loop of the clear-cache handler (server.js lines
148-166): stat the entry; skip directories; otherwise unlink; a throw from
stat or unlink appends `"name: message"` to `errors` and the loop continues.
Returns `(deletedCount, errors)`. -/
def clearLoop : List Entry → Nat × List String
  | [] => (0, [])
  | e :: rest =>
    match e.statSync with
    | .error m =>
      let r := clearLoop rest
      (r.1, (e.name ++ ": " ++ m) :: r.2)
    | .ok (isDir, _, _) =>
      if isDir then clearLoop rest
      else
        match e.unlinkSync with
        | .ok _ =>
          let r := clearLoop rest
          (r.1 + 1, r.2)
        | .error m =>
          let r := clearLoop rest
          (r.1, (e.name ++ ": " ++ m) :: r.2)

/-- Whether the clear-cache run actually removes an entry: it passes the name
filter, stats successfully as a non-directory, and unlinks successfully. -/
def Entry.wasDeleted (e : Entry) : Bool :=
  clearFilter e.name && e.statFails.isNone && !e.isDir && e.unlinkFails.isNone

/-- The fallback `POST /api/files/clear-cache` handler (server.js lines
131-185). Returns the `(status, body)` response together with the filesystem
state after the call. Missing root yields `200 {message: "No cache to clear"}`;
a readdir throw is caught by the outer catch and yields 500; otherwise the
per-item loop runs and the response is 207 (some errors) or 200 (none). -/
def clearCacheHandler (fs : FS) : (Nat × JVal) × FS :=
  if fs.rootExists then
    match fs.listing with
    | .error m =>
      ((500, .obj [("error", .str ("Failed to clear cache: " ++ m))]), fs)
    | .ok entries =>
      let files := entries.filter (fun e => clearFilter e.name)
      let r := clearLoop files
      let deletedCount := r.1
      let errors := r.2
      let fs' : FS := ⟨true, .ok (entries.filter (fun e => !e.wasDeleted))⟩
      if errors.length > 0 then
        ((207, .obj [
          ("message", .str ("Cache partially cleared. " ++ toString deletedCount
            ++ " files deleted, " ++ toString errors.length ++ " errors.")),
          ("deletedCount", .num deletedCount),
          ("errors", .arr (errors.map JVal.str))]), fs')
      else
        ((200, .obj [("message", .str "Cache cleared successfully"),
          ("deletedCount", .num deletedCount)]), fs')
  else
    ((200, .obj [("message", .str "No cache to clear")]), fs)

/-! ### Server startup, backend selection and health check -/

/-- Whether an `Except` outcome is a success. -/
def exceptOk {α β : Type} : Except α β → Bool
  | .ok _ => true
  | .error _ => false

/-- The process-wide state `startServer` leaves behind: the
`blobStorageInitialized` flag (server.js line 32, set at line 65) and whether
the compiled route modules loaded (lines 81-88) — when they fail to load, the
inline fallback handlers are installed instead (lines 89-186). -/
structure ServerState where
  blobStorageInitialized : Bool
  routesLoaded : Bool

/-- `startServer` (server.js lines 58-200): the blob-storage initialization is
attempted inside a try/catch, so a failure only leaves
`blobStorageInitialized = false`; the Cosmos DB initialization outcome is
likewise caught and affects nothing modelled here; route loading is attempted
and its failure selects the fallback handlers. No outcome is fatal: the
function always produces a server state. -/
def startServer (blobInit : Except String Unit) (cosmosInit : Except String Unit)
    (routesLoad : Except String Unit) : ServerState :=
  { blobStorageInitialized := exceptOk blobInit
    routesLoaded := exceptOk routesLoad }

/-- The `GET /api/health` handler (server.js lines 189-194). -/
def healthHandler (st : ServerState) : Nat × JVal :=
  (200, .obj [("status", .str "ok"),
    ("blobStorage", .str (if st.blobStorageInitialized then "connected" else "fallback"))])

/-- Modelled from the spec: the compiled route module `./dist/routes/fileRoutes`
is not part of the repository source; per the spec, the File Operations Facade
it implements dispatches each operation to whichever backend the Backend
Selector chose, so the primary list route serves from the Remote Store exactly
when remote initialization succeeded and from the Local Store otherwise. When
the route modules fail to load, the inline fallback handler serves. The Remote
Store behaviour itself is a parameter. -/
def serveList (remoteList : FS → Nat × JVal) (st : ServerState) (fs : FS) : Nat × JVal :=
  if st.routesLoaded then
    if st.blobStorageInitialized then remoteList fs else listHandler fs
  else listHandler fs

/-- Modelled from the spec: the primary download route (missing
`./dist/routes/fileRoutes` module), dispatching on the selected backend as
`serveList` does. -/
def serveDownload (remoteDownload : FS → String → DownloadResult) (st : ServerState)
    (fs : FS) (name : String) : DownloadResult :=
  if st.routesLoaded then
    if st.blobStorageInitialized then remoteDownload fs name else downloadHandler fs name
  else downloadHandler fs name

/-- Modelled from the spec: the primary clear-cache route (missing
`./dist/routes/fileRoutes` module), dispatching on the selected backend as
`serveList` does. -/
def serveClearCache (remoteClear : FS → (Nat × JVal) × FS) (st : ServerState)
    (fs : FS) : (Nat × JVal) × FS :=
  if st.routesLoaded then
    if st.blobStorageInitialized then remoteClear fs else clearCacheHandler fs
  else clearCacheHandler fs

/-! ### Concrete fixtures and spec-side definitions used by the claims -/

/-- The notion of an eligible item used by the claim and the spec glossary: not hidden,
not the reserved `"test"` name, and not a subdirectory. Stated from the words
of the spec, for comparison with what the code actually attempts. -/
def eligibleSpec (e : Entry) : Bool :=
  !jsStartsWith e.name "." && e.name != "test" && !e.isDir

/-- Three eligible files `x`, `y`, `z` where deleting `y` fails. -/
def fsPartialRun : FS := ⟨true, .ok [
  ⟨"x", false, 1, 0, none, none, none⟩,
  ⟨"y", false, 1, 0, none, some "boom", none⟩,
  ⟨"z", false, 1, 0, none, none, none⟩]⟩

/-- A directory entry whose `statSync` throws. -/
def dirStatFailEntry : Entry := ⟨"d", true, 0, 0, some "EACCES", none, none⟩

/-- A store root containing only a directory whose `statSync` throws. -/
def fsDirStatFail : FS := ⟨true, .ok [dirStatFailEntry]⟩

/-- A filesystem whose store root does not exist. -/
def fsNoRoot : FS := ⟨false, .ok []⟩

/-- The entries of the scenario in the spec: `a.txt` (10-byte file), `.git`
(hidden), `test` (reserved), `sub/` (subdirectory). -/
def scenarioEntries : List Entry := [
  ⟨"a.txt", false, 10, 0, none, none, none⟩,
  ⟨".git", true, 0, 0, none, none, none⟩,
  ⟨"test", true, 0, 0, none, none, none⟩,
  ⟨"sub", true, 0, 0, none, none, none⟩]

/-- A store root holding the scenario entries. -/
def fsScenario : FS := ⟨true, .ok scenarioEntries⟩

/-- Entries `a.txt`, `.hidden` and `b.txt`. -/
def listThreeEntries : List Entry := [
  ⟨"a.txt", false, 10, 3, none, none, none⟩,
  ⟨".hidden", false, 1, 0, none, none, none⟩,
  ⟨"b.txt", false, 2, 5, none, none, none⟩]

/-- A store root containing `a.txt`, `.hidden` and `b.txt`. -/
def fsListThree : FS := ⟨true, .ok listThreeEntries⟩

/-- An existing but empty store root. -/
def fsEmptyStore : FS := ⟨true, .ok []⟩

/-- A store root with one file whose download transfer fails. -/
def fsReadFail : FS := ⟨true, .ok [⟨"f.txt", false, 1, 0, none, none, some "EIO"⟩]⟩

/-- A store root that exists but whose enumeration throws. -/
def fsListErr : FS := ⟨true, .error "EIO"⟩

/-- A subdirectory entry, the reserved `test` entry (as a directory) and a
plain file. -/
def withDirsEntries : List Entry := [
  ⟨"sub", true, 0, 0, none, none, none⟩,
  ⟨"test", true, 0, 0, none, none, none⟩,
  ⟨"a.txt", false, 5, 1, none, none, none⟩]

/-- A store root containing a subdirectory, the reserved `test` entry and a
plain file. -/
def fsWithDirs : FS := ⟨true, .ok withDirsEntries⟩

/-! ### Helper lemmas -/

/-- The aggregate of the per-item loop: deleted plus errored items are exactly
the processed entries that were not skipped as successfully-stat-ed
directories. -/
theorem clearLoop_length (l : List Entry) :
    (clearLoop l).1 + (clearLoop l).2.length
      = (l.filter (fun e => !(e.statFails.isNone && e.isDir))).length := by
  induction l with
  | nil => rfl
  | cons e rest ih =>
    obtain ⟨n, d, s, b, st, ul, rd⟩ := e
    cases st <;> cases d <;> cases ul <;>
      simp [clearLoop, Entry.statSync, Entry.unlinkSync, List.filter_cons] at * <;> omega

/-- When every entry stats successfully, the map of the list handler yields
the descriptor of each entry. -/
theorem statMap_ok (l : List Entry) (h : ∀ e ∈ l, e.statFails = none) :
    statMap l = .ok (l.map fileDesc) := by
  induction l with
  | nil => rfl
  | cons e rest ih =>
    have he : e.statFails = none := h e (by simp)
    have hr := ih (fun x hx => h x (by simp [hx]))
    simp [statMap, Entry.statSync, he, hr, fileDesc]

/-- The list handler on a readable root whose non-hidden entries all stat
successfully returns 200 with the descriptors of exactly those entries. -/
theorem listHandler_ok (fs : FS) (entries : List Entry)
    (hroot : fs.rootExists = true) (hlist : fs.listing = .ok entries)
    (hstat : ∀ e ∈ entries.filter (fun e => !jsStartsWith e.name "."), e.statFails = none) :
    listHandler fs
      = (200, .arr ((entries.filter (fun e => !jsStartsWith e.name ".")).map fileDesc)) := by
  simp [listHandler, FS.readdirSync, hroot, hlist, statMap_ok _ hstat]

/-! ### Claim theorems -/

/-- C1 counterexample: in the run `[x, y, z]` where deleting `y` fails, the
code appends the plain string `"y: boom"` to `errors`, not an
`{itemName, message}` record — the sole element of the returned `errors`
array is not a JSON object. -/
theorem clearCache_errors_are_strings_cex :
    (clearCacheHandler fsPartialRun).1.1 = 207 ∧
    (clearCacheHandler fsPartialRun).1.2.getField "deletedCount" = some (.num 2) ∧
    (clearCacheHandler fsPartialRun).1.2.getField "errors" = some (.arr [.str "y: boom"]) ∧
    JVal.isObj (.str "y: boom") = false :=
  ⟨rfl, rfl, rfl, rfl⟩

/-- C1 (amended): for every listing `[x, y, z]` of eligible files where
deleting `y` fails and `x`, `z` succeed, clear-cache continues past the
failure and returns 207 with `deletedCount = 2` and `errors` holding exactly
the one string joining the name of the failed item and the message — never an
aborted or empty result. -/
theorem clearCache_partial_tolerance (fs : FS)
    (nx ny nz m : String) (sx sy sz : Nat) (bx b2 b3 : Int) (rx ry rz : Option String)
    (hfs : fs = ⟨true, .ok [⟨nx, false, sx, bx, none, none, rx⟩,
      ⟨ny, false, sy, b2, none, some m, ry⟩, ⟨nz, false, sz, b3, none, none, rz⟩]⟩)
    (hx : clearFilter nx = true) (hy : clearFilter ny = true) (hz : clearFilter nz = true) :
    (clearCacheHandler fs).1.1 = 207 ∧
    (clearCacheHandler fs).1.2.getField "deletedCount" = some (.num 2) ∧
    (clearCacheHandler fs).1.2.getField "errors" = some (.arr [.str (ny ++ ": " ++ m)]) := by
  subst hfs
  have hl : clearLoop [⟨nx, false, sx, bx, none, none, rx⟩,
      ⟨ny, false, sy, b2, none, some m, ry⟩, ⟨nz, false, sz, b3, none, none, rz⟩]
      = (2, [ny ++ ": " ++ m]) := by
    simp [clearLoop, Entry.statSync, Entry.unlinkSync]
  refine ⟨?_, ?_, ?_⟩ <;>
    simp [clearCacheHandler, List.filter_cons, hx, hy, hz, hl, JVal.getField, List.lookup]

/-- C1 witness: the amended claim at the concrete run `x`, `y`, `z` with
deleting `y` failing with message `boom`. -/
theorem clearCache_partial_tolerance_witness :
    (clearCacheHandler fsPartialRun).1.1 = 207 ∧
    (clearCacheHandler fsPartialRun).1.2.getField "deletedCount" = some (.num 2) ∧
    (clearCacheHandler fsPartialRun).1.2.getField "errors"
      = some (.arr [.str ("y" ++ ": " ++ "boom")]) :=
  clearCache_partial_tolerance fsPartialRun "x" "y" "z" "boom" 1 1 1 0 0 0 none none none
    rfl (by decide) (by decide) (by decide)

/-- C2 counterexample: a store root holding a single directory whose
`statSync` throws. The eligible-item count of the claim is `0` (the entry is
a subdirectory), yet the run returns `deletedCount = 0` with one error, so
`deletedCount + errors.length ≠ eligible items attempted`. -/
theorem clearCache_aggregation_cex :
    ((clearLoop ([dirStatFailEntry].filter (fun e => clearFilter e.name))).1
      + (clearLoop ([dirStatFailEntry].filter (fun e => clearFilter e.name))).2.length = 1) ∧
    ([dirStatFailEntry].filter eligibleSpec).length = 0 ∧
    (clearCacheHandler fsDirStatFail).1.1 = 207 ∧
    (clearCacheHandler fsDirStatFail).1.2.getField "deletedCount" = some (.num 0) ∧
    (clearCacheHandler fsDirStatFail).1.2.getField "errors" = some (.arr [.str "d: EACCES"]) ∧
    (1 : Nat) ≠ 0 :=
  ⟨rfl, rfl, rfl, rfl, rfl, by decide⟩

/-- C2 (amended): for every run reaching the per-item loop,
`deletedCount + errors.length` equals the number of non-hidden, non-`"test"`
entries minus those that stat successfully as directories — a directory whose
stat throws is counted, since it lands in `errors`. -/
theorem clearCache_aggregation_invariant (entries : List Entry) :
    (clearLoop (entries.filter (fun e => clearFilter e.name))).1
      + (clearLoop (entries.filter (fun e => clearFilter e.name))).2.length
      = ((entries.filter (fun e => clearFilter e.name)).filter
          (fun e => !(e.statFails.isNone && e.isDir))).length :=
  clearLoop_length _

/-- C3: if blob-storage initialization fails, `startServer` still produces a
server state (the failure is caught, never fatal), the health endpoint
reports `blobStorage = "fallback"` — and `"connected"` exactly when
initialization succeeded — and list, download and clear-cache are all
answered by the local-store handlers, whatever the remote implementations
would do and whatever the Cosmos DB and route-loading outcomes are. -/
theorem fallback_safety (e : String) (cosmosInit routesLoad : Except String Unit)
    (remoteList : FS → Nat × JVal) (remoteDownload : FS → String → DownloadResult)
    (remoteClear : FS → (Nat × JVal) × FS) (fs : FS) (name : String) :
    (startServer (.error e) cosmosInit routesLoad).blobStorageInitialized = false ∧
    healthHandler (startServer (.error e) cosmosInit routesLoad)
      = (200, .obj [("status", .str "ok"), ("blobStorage", .str "fallback")]) ∧
    serveList remoteList (startServer (.error e) cosmosInit routesLoad) fs = listHandler fs ∧
    serveDownload remoteDownload (startServer (.error e) cosmosInit routesLoad) fs name
      = downloadHandler fs name ∧
    serveClearCache remoteClear (startServer (.error e) cosmosInit routesLoad) fs
      = clearCacheHandler fs ∧
    (∀ blobInit : Except String Unit,
      healthHandler (startServer blobInit cosmosInit routesLoad)
        = (200, .obj [("status", .str "ok"),
            ("blobStorage", .str (if exceptOk blobInit then "connected" else "fallback"))])) := by
  refine ⟨rfl, rfl, ?_, ?_, ?_, ?_⟩
  · simp [serveList, startServer, exceptOk]
  · simp [serveDownload, startServer, exceptOk]
  · simp [serveClearCache, startServer, exceptOk]
  · intro b
    cases b <;> simp [healthHandler, startServer, exceptOk]

/-- C4 counterexample: on a missing store root the handler returns
`200 {message: "No cache to clear"}` with no `deletedCount` field and no
`errors` field, so the claimed `{deletedCount: 0, errors: []}` body is not
what is returned. -/
theorem clearCache_noRoot_fields_cex :
    (clearCacheHandler fsNoRoot).1 = (200, .obj [("message", .str "No cache to clear")]) ∧
    (clearCacheHandler fsNoRoot).1.2.getField "deletedCount" = none ∧
    (clearCacheHandler fsNoRoot).1.2.getField "errors" = none :=
  ⟨rfl, rfl, rfl⟩

/-- C4 (amended): clear-cache on a missing store root returns
`200 {message: "No cache to clear"}` — not an error — and leaves the
filesystem untouched, so calling it twice in a row yields the same result
both times. -/
theorem clearCache_noRoot_idempotent (fs : FS) (h : fs.rootExists = false) :
    clearCacheHandler fs = ((200, .obj [("message", .str "No cache to clear")]), fs) ∧
    (clearCacheHandler (clearCacheHandler fs).2).1 = (clearCacheHandler fs).1 := by
  have h1 : clearCacheHandler fs = ((200, .obj [("message", .str "No cache to clear")]), fs) := by
    simp [clearCacheHandler, h]
  exact ⟨h1, by simp [h1]⟩

/-- C4 witness: the amended claim at the concrete missing-root filesystem. -/
theorem clearCache_noRoot_idempotent_witness :
    clearCacheHandler fsNoRoot = ((200, .obj [("message", .str "No cache to clear")]), fsNoRoot) ∧
    (clearCacheHandler (clearCacheHandler fsNoRoot).2).1 = (clearCacheHandler fsNoRoot).1 :=
  clearCache_noRoot_idempotent fsNoRoot rfl

/-- C5: for a store root containing exactly `a.txt` (a 10-byte file), `.git`
(hidden), `test` (reserved) and the subdirectory `sub/`, clear-cache deletes
only `a.txt`: the loop yields `deletedCount = 1` with no errors, and the
response is `200 {message: "Cache cleared successfully", deletedCount: 1}`. -/
theorem clearCache_scenario :
    clearLoop (scenarioEntries.filter (fun e => clearFilter e.name)) = (1, ([] : List String)) ∧
    (clearCacheHandler fsScenario).1
      = (200, .obj [("message", .str "Cache cleared successfully"), ("deletedCount", .num 1)]) :=
  ⟨rfl, rfl⟩

/-- C6: the fallback list handler returns exactly the entries of the store
root whose names do not start with `"."`, resolving size and creation time
for each (its `{filename, size, createdAt}` descriptor); every returned
descriptor comes from a non-hidden entry, so `.hidden` never appears. -/
theorem list_excludes_hidden (fs : FS) (entries : List Entry)
    (hroot : fs.rootExists = true) (hlist : fs.listing = .ok entries)
    (hstat : ∀ e ∈ entries.filter (fun e => !jsStartsWith e.name "."), e.statFails = none) :
    listHandler fs
      = (200, .arr ((entries.filter (fun e => !jsStartsWith e.name ".")).map fileDesc)) ∧
    ∀ d ∈ (entries.filter (fun e => !jsStartsWith e.name ".")).map fileDesc,
      ∃ e, e ∈ entries ∧ jsStartsWith e.name "." = false ∧ d = fileDesc e := by
  refine ⟨listHandler_ok fs entries hroot hlist hstat, ?_⟩
  intro d hd
  obtain ⟨e, he, rfl⟩ := List.mem_map.mp hd
  have hm := List.mem_filter.mp he
  exact ⟨e, hm.1, by simpa using hm.2, rfl⟩

/-- C6 witness: the directory `["a.txt", ".hidden", "b.txt"]` lists exactly
`a.txt` and `b.txt`. -/
theorem list_excludes_hidden_witness :
    listHandler fsListThree = (200, .arr [fileDesc ⟨"a.txt", false, 10, 3, none, none, none⟩,
      fileDesc ⟨"b.txt", false, 2, 5, none, none, none⟩]) :=
  ((list_excludes_hidden fsListThree listThreeEntries rfl rfl (by decide)).1).trans (by rfl)

/-- C7: download of a name with no matching entry yields the 404 not-found
outcome — never a stream — the existence check coming first; a failing
transfer on an existing entry yields the distinct 500 failure outcome. -/
theorem download_notFound_vs_ioError (fs : FS) (name : String) :
    (fs.findEntry name = none →
      downloadHandler fs name = .notFound ∧ (downloadHandler fs name).status = 404 ∧
      ∀ s, downloadHandler fs name ≠ .fileStream s) ∧
    (∀ e m, fs.findEntry name = some e → e.readFails = some m →
      downloadHandler fs name = .failure ∧ (downloadHandler fs name).status = 500) := by
  constructor
  · intro h
    refine ⟨?_, ?_, ?_⟩ <;> simp [downloadHandler, h, DownloadResult.status]
  · intro e m h1 h2
    constructor <;> simp [downloadHandler, h1, h2, DownloadResult.status]

/-- C7 witness: `missing.txt` on an empty store is not found; `f.txt`, whose
transfer fails, yields the 500 failure outcome. -/
theorem download_notFound_vs_ioError_witness :
    downloadHandler fsEmptyStore "missing.txt" = .notFound ∧
    downloadHandler fsReadFail "f.txt" = .failure :=
  ⟨((download_notFound_vs_ioError fsEmptyStore "missing.txt").1 rfl).1,
    ((download_notFound_vs_ioError fsReadFail "f.txt").2
      ⟨"f.txt", false, 1, 0, none, none, some "EIO"⟩ "EIO" rfl rfl).1⟩

/-- C8: when the store root exists but enumerating it throws, clear-cache
fails as a whole with a single `500 {error: "Failed to clear cache: ..."}`
response carrying no `deletedCount`/`errors` aggregate. -/
theorem clearCache_listing_failure_fatal (fs : FS) (m : String)
    (hroot : fs.rootExists = true) (hlist : fs.listing = .error m) :
    clearCacheHandler fs = ((500, .obj [("error", .str ("Failed to clear cache: " ++ m))]), fs) ∧
    (clearCacheHandler fs).1.2.getField "deletedCount" = none ∧
    (clearCacheHandler fs).1.2.getField "errors" = none := by
  have h1 : clearCacheHandler fs
      = ((500, .obj [("error", .str ("Failed to clear cache: " ++ m))]), fs) := by
    simp [clearCacheHandler, hroot, hlist]
  refine ⟨h1, ?_, ?_⟩ <;> simp [h1, JVal.getField, List.lookup]

/-- C8 witness: the claim at a root whose enumeration throws `EIO`. -/
theorem clearCache_listing_failure_fatal_witness :
    clearCacheHandler fsListErr
      = ((500, .obj [("error", .str ("Failed to clear cache: " ++ "EIO"))]), fsListErr) ∧
    (clearCacheHandler fsListErr).1.2.getField "deletedCount" = none ∧
    (clearCacheHandler fsListErr).1.2.getField "errors" = none :=
  clearCache_listing_failure_fatal fsListErr "EIO" rfl rfl

/-- C9: the fallback list handler applies no directory filter and no `"test"`
filter: every non-hidden entry of the listing, directories and the reserved
`test` entry included, is stat-ed and contributes its
`{filename, size, createdAt}` descriptor to the output. -/
theorem list_includes_directories (fs : FS) (entries : List Entry) (e : Entry)
    (hroot : fs.rootExists = true) (hlist : fs.listing = .ok entries)
    (hstat : ∀ x ∈ entries.filter (fun x => !jsStartsWith x.name "."), x.statFails = none)
    (he : e ∈ entries) (hn : jsStartsWith e.name "." = false) :
    listHandler fs
      = (200, .arr ((entries.filter (fun x => !jsStartsWith x.name ".")).map fileDesc)) ∧
    fileDesc e ∈ (entries.filter (fun x => !jsStartsWith x.name ".")).map fileDesc := by
  refine ⟨listHandler_ok fs entries hroot hlist hstat, ?_⟩
  exact List.mem_map_of_mem _ (List.mem_filter.mpr ⟨he, by simp [hn]⟩)

/-- C9 witness: the subdirectory `sub` appears in the listing of a root that
also holds the reserved `test` directory and a plain file. -/
theorem list_includes_directories_witness :
    listHandler fsWithDirs
      = (200, .arr ((withDirsEntries.filter (fun x => !jsStartsWith x.name ".")).map fileDesc)) ∧
    fileDesc ⟨"sub", true, 0, 0, none, none, none⟩
      ∈ (withDirsEntries.filter (fun x => !jsStartsWith x.name ".")).map fileDesc :=
  list_includes_directories fsWithDirs withDirsEntries ⟨"sub", true, 0, 0, none, none, none⟩
    rfl rfl (by decide) (by decide) (by decide)

/-- C10: in the per-item loop, an entry whose `statSync` throws — even a
directory — is appended to `errors` as `"name: message"` and the loop
continues with the remaining entries. -/
theorem clearLoop_statFailure_continues (e : Entry) (rest : List Entry) (m : String)
    (h : e.statFails = some m) :
    clearLoop (e :: rest) = ((clearLoop rest).1, (e.name ++ ": " ++ m) :: (clearLoop rest).2) := by
  simp [clearLoop, Entry.statSync, h]

/-- C10 witness: a directory whose stat throws `EACCES` followed by a
deletable file: the error is recorded and the file is still deleted. -/
theorem clearLoop_statFailure_continues_witness :
    clearLoop [dirStatFailEntry, ⟨"a.txt", false, 5, 1, none, none, none⟩]
      = (1, ["d: EACCES"]) :=
  (clearLoop_statFailure_continues dirStatFailEntry
    [⟨"a.txt", false, 5, 1, none, none, none⟩] "EACCES" rfl).trans (by rfl)

end LLMFGO
